import Mathlib

/-!
Verification of the silent-risk distributed task-orchestration core.

This file shallowly embeds the cache-key construction, status-write and
pub/sub-publish behaviour, the worker's risk-analysis pipeline, the Kafka
consume loop, the analysis-submission endpoint, the signature verifier's
timestamp check and the WebSocket connection manager, and proves (or
refutes) the spec's claims about them.

Conventions:
- Python strings are Lean `String`s; Python `None` becomes `Option`.
- A Python exception raised by an external call (Redis, Kafka, RPC, the
  passport service) is modelled by an environment field of type
  `Option String` (`none` = success, `some e` = the call raises with
  message `e`) or `Except String α` when the call returns a value.
- Each modelled function mirrors the corresponding Python function's
  control flow statement by statement; effects (cache writes, pub/sub
  publishes, Kafka publishes) are accumulated in explicit trace lists.
-/

namespace SilentRisk

/-! ## Python string helpers -/

/-- Python's `str.lower()` restricted to ASCII, as used on 0x-hex wallet
addresses throughout the codebase. -/
def pyLower (s : String) : String :=
  String.mk (s.data.map Char.toLower)

/-- `leadsWith needle hay` is true when `needle` occurs at the start of
`hay` (character-list version). -/
def leadsWith : List Char → List Char → Bool
  | [], _ => true
  | _ :: _, [] => false
  | a :: as, b :: bs => a == b && leadsWith as bs

/-- `containsSeq needle hay` is true when `needle` occurs contiguously
somewhere inside `hay`. -/
def containsSeq (needle : List Char) : List Char → Bool
  | [] => leadsWith needle []
  | c :: t => leadsWith needle (c :: t) || containsSeq needle t

/-- `strContains hay needle`: `needle` is a contiguous substring of `hay`,
as Python's `needle in hay`. -/
def strContains (hay needle : String) : Bool :=
  containsSeq needle.data hay.data

/-! ## Cache keys

The five key namespaces built by `backend/app/services/cache.py` and
`worker/app/services/cache.py` (f-strings in the Python source). -/

def taskStatusKey (task_id : String) : String := "task:status:" ++ task_id

def taskResultKey (task_id : String) : String := "task:result:" ++ task_id

def taskCommitmentKey (task_id : String) : String := "task:commitment:" ++ task_id

def commitmentTaskKey (commitment : String) : String := "commitment:task:" ++ commitment

def analysisCommitmentKey (commitment : String) : String := "analysis:commitment:" ++ commitment

/-- Key written by `CacheService.cache_wallet_analysis` (backend):
`f"analysis:wallet:{wallet_address.lower()}"`. -/
def analysisWalletKey (wallet_address : String) : String :=
  "analysis:wallet:" ++ pyLower wallet_address

/-- Key written by `PassportService._cache_claim_data` (worker):
`f"passport:claim:{wallet_address.lower()}"`, written with a 24-hour TTL
through the worker `CacheService`'s public `redis` property and read back
by the backend's passport endpoints. -/
def passportClaimKey (wallet_address : String) : String :=
  "passport:claim:" ++ pyLower wallet_address

/-! ## C1: the public cache write operations of both tiers

One constructor per cache write (`setex`) reachable through the public
surface of the two `CacheService`s: the public methods of
`backend/app/services/cache.py` and `worker/app/services/cache.py`, plus
the direct `cache.redis.setex` performed by
`PassportService._cache_claim_data` through the worker `CacheService`'s
public `redis` property (the only direct-`redis` write in the
repository).  `invalidate_wallet_analysis` performs a `delete`, not a
write, so it is not listed. -/

inductive CacheWrite where
  /-- backend `set_task_status` -/
  | setTaskStatus (task_id : String)
  /-- backend `set_task_result` -/
  | setTaskResult (task_id : String)
  /-- backend `cache_wallet_analysis` -/
  | cacheWalletAnalysis (wallet_address : String)
  /-- backend `link_task_to_commitment` (two `setex` calls) -/
  | linkTaskToCommitment (task_id commitment : String)
  /-- backend `cache_commitment_analysis` -/
  | cacheCommitmentAnalysis (commitment : String)
  /-- worker `update_task_status` -/
  | workerUpdateTaskStatus (task_id : String)
  /-- worker `store_task_result` -/
  | workerStoreTaskResult (task_id : String)
  /-- worker `cache_commitment_analysis` -/
  | workerCacheCommitmentAnalysis (commitment : String)
  /-- worker `passport_service._cache_claim_data`, via `cache.redis.setex` -/
  | passportCacheClaimData (wallet_address : String)
deriving DecidableEq, Repr

/-- The Redis keys written (via `setex`) by one invocation of each public
cache operation, exactly as the Python builds them. -/
def writtenKeys : CacheWrite → List String
  | .setTaskStatus tid => [taskStatusKey tid]
  | .setTaskResult tid => [taskResultKey tid]
  | .cacheWalletAnalysis w => [analysisWalletKey w]
  | .linkTaskToCommitment tid c => [taskCommitmentKey tid, commitmentTaskKey c]
  | .cacheCommitmentAnalysis c => [analysisCommitmentKey c]
  | .workerUpdateTaskStatus tid => [taskStatusKey tid]
  | .workerStoreTaskResult tid => [taskResultKey tid]
  | .workerCacheCommitmentAnalysis c => [analysisCommitmentKey c]
  | .passportCacheClaimData w => [passportClaimKey w]

/-- The wallet-address argument of a cache operation, when it has one. -/
def walletArg : CacheWrite → Option String
  | .cacheWalletAnalysis w => some w
  | .passportCacheClaimData w => some w
  | _ => none

/-- Operations with a call site in the repository.  `cache_wallet_analysis`
has no caller anywhere in the source; `_cache_claim_data` is invoked on
every risk-analysis task whose passport stage runs (`create_passport`,
called from the risk-analysis handler). -/
def isInvokedOp : CacheWrite → Bool
  | .cacheWalletAnalysis _ => false
  | _ => true

/-- C1 as stated: no public cache operation, when invoked, writes a key
containing (the lower-cased form of) its wallet-address argument. -/
def claimC1 : Prop :=
  ∀ (op : CacheWrite) (w : String), walletArg op = some w →
    ∀ k ∈ writtenKeys op, strContains k (pyLower w) = false

/-- The task-id argument of a cache operation, when it has one. -/
def taskIdArg : CacheWrite → Option String
  | .setTaskStatus tid => some tid
  | .setTaskResult tid => some tid
  | .linkTaskToCommitment tid _ => some tid
  | .workerUpdateTaskStatus tid => some tid
  | .workerStoreTaskResult tid => some tid
  | _ => none

/-- The commitment argument of a cache operation, when it has one. -/
def commitmentArg : CacheWrite → Option String
  | .linkTaskToCommitment _ c => some c
  | .cacheCommitmentAnalysis c => some c
  | .workerCacheCommitmentAnalysis c => some c
  | _ => none

/-! ## C8: the ownership verifier's timestamp check -/

/-- `SignatureVerifier.MAX_SIGNATURE_AGE_SECONDS`. -/
def MAX_SIGNATURE_AGE_SECONDS : Int := 300

/-- `SignatureVerifier._verify_timestamp`: `true` exactly when the check
raises 401 Unauthorized (future-dated beyond 60s skew, or older than the
replay window). -/
def verifyTimestampRejects (now timestamp : Int) : Bool :=
  let age := now - timestamp
  if age < -60 then true
  else if age > MAX_SIGNATURE_AGE_SECONDS then true
  else false

/-! ## C3: status writes and their pub/sub publish -/

/-- One `task:status:*` entry as written by `setex` (both tiers). -/
structure StatusWrite where
  task_id : String
  status : String
  progress : Nat
  message : Option String
deriving DecidableEq, Repr

/-- One message published on the `task_status_updates` pub/sub channel. -/
structure PubMsg where
  task_id : String
  status : String
  progress : Nat
  message : Option String
deriving DecidableEq, Repr

/-- Result of one status-write operation: the cache writes that completed
(key and payload), the pub/sub messages that went out, and the exception
the operation itself raised, if any. -/
structure StatusOpResult where
  writes : List (String × StatusWrite)
  published : List PubMsg
  raised : Option String
deriving DecidableEq, Repr

/-- Python's `str.capitalize()` restricted to ASCII. -/
def pyCapitalize (s : String) : String :=
  match s.data with
  | [] => ""
  | c :: cs => String.mk (Char.toUpper c :: cs.map Char.toLower)

/-- The worker's pub/sub default message:
`message or f"{status.capitalize()} ({progress}%)"`. -/
def workerDefaultMsg (status : String) (progress : Nat) : String :=
  pyCapitalize status ++ " (" ++ toString progress ++ "%)"

/-- Backend `CacheService.set_task_status`: `setex` the status entry, then
publish inside `try/except Exception` — a publish failure is logged and
swallowed.  `publishErr = some e` means `redis_publisher.publish_status_update`
raises `e`. -/
def set_task_status (task_id status : String) (progress : Nat)
    (message : Option String) (publishErr : Option String) : StatusOpResult :=
  let w : StatusWrite := ⟨task_id, status, progress, message⟩
  match publishErr with
  | none => ⟨[(taskStatusKey task_id, w)], [⟨task_id, status, progress, message⟩], none⟩
  | some _ => ⟨[(taskStatusKey task_id, w)], [], none⟩

/-- Worker `CacheService.update_task_status`: `setex` the status entry, then
`self._redis.publish(...)` with no surrounding `try` — a publish failure
propagates out of the method after the cache write has completed. -/
def update_task_status (task_id status : String) (progress : Nat)
    (message : Option String) (publishErr : Option String) : StatusOpResult :=
  let w : StatusWrite := ⟨task_id, status, progress, message⟩
  match publishErr with
  | none =>
      ⟨[(taskStatusKey task_id, w)],
       [⟨task_id, status, progress, some (message.getD (workerDefaultMsg status progress))⟩],
       none⟩
  | some e => ⟨[(taskStatusKey task_id, w)], [], some e⟩

/-- C3 as stated: in both tiers, a status-write operation succeeds (does not
raise) even when its pub/sub publish raises. -/
def claimC3 : Prop :=
  ∀ (tid status : String) (progress : Nat) (msg : Option String) (e : String),
    (set_task_status tid status progress msg (some e)).raised = none ∧
    (update_task_status tid status progress msg (some e)).raised = none

/-! ## C6: the Kafka consume loop -/

/-- Behaviour of a handler invocation on one delivered message. -/
inductive HandlerRun where
  | ok
  | raises (e : String)
deriving DecidableEq, Repr

/-- One polled Kafka message, together with how the registered handler for
its topic behaves on it (`none`: no handler registered for the topic). -/
structure KafkaMsg where
  offset : Nat
  topic : String
  handlerBehavior : Option HandlerRun
deriving DecidableEq, Repr

/-- `KafkaConsumerService._process_message`: looks up the topic's handler;
with no handler it warns and returns normally; a handler exception is
logged and re-raised.  Returns `some e` when it raises `e`. -/
def processMessage (m : KafkaMsg) : Option String :=
  match m.handlerBehavior with
  | none => none
  | some .ok => none
  | some (.raises e) => some e

/-- One iteration of `KafkaConsumerService._consume_loop`: commit the offset
exactly when `_process_message` returned without raising; on exception, log
and do not commit.  Returns whether the offset was committed. -/
def consumeStep (m : KafkaMsg) : Bool :=
  match processMessage m with
  | none => true
  | some _ => false

/-- The consume loop over a sequence of polled messages: the offsets
committed, in order. -/
def consumeLoop : List KafkaMsg → List Nat
  | [] => []
  | m :: rest =>
      if consumeStep m then m.offset :: consumeLoop rest else consumeLoop rest

/-- `true` when the message's handler invocation returns without raising. -/
def handlerOk (m : KafkaMsg) : Bool :=
  match m.handlerBehavior with
  | some .ok => true
  | _ => false

/-! ## C2/C5/C10: the worker's risk-analysis handler

`RiskAnalysisHandler.handle` is embedded as a function from an environment
describing the behaviour of every external call it makes (blockchain
indexer, risk calculator, passport service, Redis, Kafka) to the trace of
effects it performs plus whether it propagates an exception. -/

/-- Value returned by `passport_service.create_passport`. -/
structure PassportData where
  commitment : String
  nullifier : String
  vault_address : String
  block_height : Nat
  tx_hash : String
deriving DecidableEq, Repr

/-- The `passport` sub-object the handler embeds in the result payload:
either the full ready-to-claim record (success) or the structured
failure record `{status: "generation_failed", error}`. -/
inductive Passport where
  | readyToClaim (commitment nullifier_hash vault_address : String)
      (block_height : Nat) (risk_score : Nat) (tx_hash : String)
  | generationFailed (error : String)
deriving DecidableEq, Repr

/-- The risk-analysis result payload (the fields the orchestration reads
and writes; the scoring internals are opaque). -/
structure RiskAnalysis where
  risk_score : Nat
  risk_band : String
  passport : Option Passport
deriving DecidableEq, Repr

/-- One message on the risk-analysis result topic
(`publish_risk_analysis_result`). -/
structure KafkaResultMsg where
  task_id : String
  status : String
  result : Option RiskAnalysis
  error : Option String
deriving DecidableEq, Repr

/-- Trace of the externally visible effects of one handler invocation. -/
structure Trace where
  statusWrites : List StatusWrite
  pubsub : List PubMsg
  kafkaResults : List KafkaResultMsg
  resultStore : List (String × RiskAnalysis)
  analysisStore : List (String × RiskAnalysis)
deriving DecidableEq, Repr

def Trace.empty : Trace := ⟨[], [], [], [], []⟩

/-- Behaviour of the handler's collaborators on one invocation.  For each
external call, `none` / `.ok` means it succeeds and `some e` / `.error e`
means it raises with message `e`.  `statusPub p` is the behaviour of the
Redis pub/sub publish inside the `update_task_status` call whose progress
argument is `p` (the call sites use the pairwise-distinct progresses
10, 40, 60, 80, 100 and 0). -/
structure HandlerEnv where
  task_id : String
  commitment : String
  wallet_address : String
  /-- `indexer.get_wallet_activity_summary` (summary contents opaque) -/
  fetch : Except String Unit
  /-- `calculator.calculate_comprehensive_risk` -/
  score : Except String RiskAnalysis
  /-- `passport_service.create_passport` -/
  passport : Except String PassportData
  /-- Redis publish inside `update_task_status`, by progress value -/
  statusPub : Nat → Option String
  /-- `kafka_producer.publish_risk_analysis_result(..., "completed", ...)` -/
  kafkaCompleted : Option String
  /-- `cache.store_task_result` -/
  storeResult : Option String
  /-- `cache.cache_commitment_analysis` -/
  cacheAnalysis : Option String
  /-- `kafka_producer.publish_risk_analysis_result(..., "failed", ...)` in the `except` block -/
  kafkaFailed : Option String

/-- Sequencing with exception propagation: a raised exception short-circuits
the rest of the `try` body, keeping the trace accumulated so far. -/
def stepBind {α β : Type} (r : Trace × Except String α)
    (f : Trace → α → Trace × Except String β) : Trace × Except String β :=
  match r with
  | (tr, .error e) => (tr, .error e)
  | (tr, .ok a) => f tr a

/-- One `cache.update_task_status` call inside the handler: the status
entry is written, the pub/sub message goes out when the publish succeeds,
and a publish failure raises (worker-tier behaviour, see
`update_task_status`). -/
def runUpdate (env : HandlerEnv) (tr : Trace) (status : String) (progress : Nat)
    (msg : Option String) : Trace × Except String Unit :=
  let r := update_task_status env.task_id status progress msg (env.statusPub progress)
  let tr := { tr with
      statusWrites := tr.statusWrites ++ r.writes.map (·.2),
      pubsub := tr.pubsub ++ r.published }
  match r.raised with
  | none => (tr, Except.ok ())
  | some e => (tr, Except.error e)

/-- Step 4 of the handler: the inner `try/except` around
`passport_service.create_passport`.  It never raises: on success the
ready-to-claim passport (with the plaintext risk score) is embedded in the
payload, on failure the `generation_failed` record is embedded instead. -/
def passportStep (env : HandlerEnv) (ra : RiskAnalysis) : RiskAnalysis :=
  match env.passport with
  | .ok pd =>
      { ra with passport := some (.readyToClaim pd.commitment pd.nullifier
          pd.vault_address pd.block_height ra.risk_score pd.tx_hash) }
  | .error e => { ra with passport := some (.generationFailed e) }

/-- `kafka_producer.publish_risk_analysis_result(task_id, "completed", result)`. -/
def publishResultCompleted (env : HandlerEnv) (tr : Trace) (ra : RiskAnalysis) :
    Trace × Except String Unit :=
  match env.kafkaCompleted with
  | none =>
      ({ tr with kafkaResults := tr.kafkaResults ++ [⟨env.task_id, "completed", some ra, none⟩] },
       Except.ok ())
  | some e => (tr, Except.error e)

/-- `cache.store_task_result(task_id, risk_analysis)`. -/
def storeResultStep (env : HandlerEnv) (tr : Trace) (ra : RiskAnalysis) :
    Trace × Except String Unit :=
  match env.storeResult with
  | none =>
      ({ tr with resultStore := tr.resultStore ++ [(taskResultKey env.task_id, ra)] },
       Except.ok ())
  | some e => (tr, Except.error e)

/-- `cache.cache_commitment_analysis(commitment, risk_analysis)`. -/
def cacheAnalysisStep (env : HandlerEnv) (tr : Trace) (ra : RiskAnalysis) :
    Trace × Except String Unit :=
  match env.cacheAnalysis with
  | none =>
      ({ tr with analysisStore := tr.analysisStore ++ [(analysisCommitmentKey env.commitment, ra)] },
       Except.ok ())
  | some e => (tr, Except.error e)

/-- The `try` body of `RiskAnalysisHandler.handle`, statement by statement:
10% write → fetch → 40% write → score → 60% write → passport `try/except`
→ 80% write → publish completed result → store result → cache analysis by
commitment → 100% completed write. -/
def handleMain (env : HandlerEnv) : Trace × Except String Unit :=
  stepBind (runUpdate env Trace.empty "processing" 10 (some "Request submitted")) fun tr _ =>
  stepBind (tr, env.fetch) fun tr _ =>
  stepBind (runUpdate env tr "processing" 40 (some "Fetching blockchain data")) fun tr _ =>
  stepBind (tr, env.score) fun tr r =>
  stepBind (runUpdate env tr "processing" 60 (some "Calculating risk score")) fun tr _ =>
  (fun ra =>
    stepBind (runUpdate env tr "processing" 80 (some "Generating passport")) fun tr _ =>
    stepBind (publishResultCompleted env tr ra) fun tr _ =>
    stepBind (storeResultStep env tr ra) fun tr _ =>
    stepBind (cacheAnalysisStep env tr ra) fun tr _ =>
    stepBind (runUpdate env tr "completed" 100 (some "Analysis complete!")) fun tr _ =>
    (tr, Except.ok ())) (passportStep env r)

/-- The `except Exception` block of `RiskAnalysisHandler.handle`: publish
the failed result to Kafka (an exception here propagates out of the
handler), then write status FAILED with progress 0.  Returns the final
trace and whether the handler propagates an exception. -/
def exceptPath (env : HandlerEnv) (tr : Trace) (e : String) : Trace × Bool :=
  match env.kafkaFailed with
  | some _ => (tr, true)
  | none =>
      let tr := { tr with kafkaResults := tr.kafkaResults ++ [⟨env.task_id, "failed", none, some e⟩] }
      match runUpdate env tr "failed" 0 (some ("Analysis failed: " ++ e)) with
      | (tr', .ok _) => (tr', false)
      | (tr', .error _) => (tr', true)

/-- `RiskAnalysisHandler.handle`: run the `try` body; on an exception run
the `except` block.  Returns the effect trace and whether the handler
propagates an exception to the consume loop. -/
def handle (env : HandlerEnv) : Trace × Bool :=
  match handleMain env with
  | (tr, .ok _) => (tr, false)
  | (tr, .error e) => exceptPath env tr e

/-- The five status writes of the success path, in source order. -/
def ladder (env : HandlerEnv) : List StatusWrite :=
  [⟨env.task_id, "processing", 10, some "Request submitted"⟩,
   ⟨env.task_id, "processing", 40, some "Fetching blockchain data"⟩,
   ⟨env.task_id, "processing", 60, some "Calculating risk score"⟩,
   ⟨env.task_id, "processing", 80, some "Generating passport"⟩,
   ⟨env.task_id, "completed", 100, some "Analysis complete!"⟩]

/-- Adjacent-pairs check that a list of progress values is non-decreasing. -/
def nondecreasingB : List Nat → Bool
  | [] => true
  | [_] => true
  | a :: b :: t => a ≤ b && nondecreasingB (b :: t)

/-- A list of progress values is non-decreasing. -/
abbrev nondecreasing (l : List Nat) : Prop := nondecreasingB l = true

/-- The progress values of the status writes of a trace, in write order. -/
def progressValues (tr : Trace) : List Nat := tr.statusWrites.map (·.progress)

/-- C2 as stated: for every handler execution the sequence of progress
values written to the task's status entry is non-decreasing, and it ends
at 100 with COMPLETED or at some value with FAILED. -/
def claimC2 : Prop :=
  ∀ env : HandlerEnv,
    nondecreasing (progressValues (handle env).1) ∧
    (∃ w, ((handle env).1.statusWrites).getLast? = some w ∧
      ((w.status = "completed" ∧ w.progress = 100) ∨ w.status = "failed"))

/-- Environment in which the blockchain-data fetch raises and every other
external call succeeds. -/
def envFetchFails : HandlerEnv where
  task_id := "t1"
  commitment := "0xc0ffee"
  wallet_address := "0xab"
  fetch := Except.error "RPC connection failed"
  score := Except.ok ⟨0, "unknown", none⟩
  passport := Except.ok ⟨"0xc0ffee", "0xnull", "0xvault", 1, "0xtx"⟩
  statusPub := fun _ => none
  kafkaCompleted := none
  storeResult := none
  cacheAnalysis := none
  kafkaFailed := none

/-- Environment in which every external call succeeds. -/
def envAllOk : HandlerEnv where
  task_id := "t1"
  commitment := "0xc0ffee"
  wallet_address := "0xab"
  fetch := Except.ok ()
  score := Except.ok ⟨25, "low", none⟩
  passport := Except.ok ⟨"0xc0ffee", "0xnull", "0xvault", 1, "0xtx"⟩
  statusPub := fun _ => none
  kafkaCompleted := none
  storeResult := none
  cacheAnalysis := none
  kafkaFailed := none

/-- Environment in which only the passport stage raises. -/
def envPassportFails : HandlerEnv where
  task_id := "t1"
  commitment := "0xc0ffee"
  wallet_address := "0xab"
  fetch := Except.ok ()
  score := Except.ok ⟨25, "low", none⟩
  passport := Except.error "FHE service unavailable"
  statusPub := fun _ => none
  kafkaCompleted := none
  storeResult := none
  cacheAnalysis := none
  kafkaFailed := none

/-! ## C7: the analysis-submission endpoint

`analyze_wallet` in `backend/app/api/risk.py`, embedded as a function of
the request data, the behaviour of its external calls, and the
commitment-keyed analysis cache. -/

/-- The backend cache state the endpoint reads: the
`analysis:commitment:{commitment}` namespace (payloads kept opaque as their
JSON text). -/
structure AnalyzeState where
  analysisCache : String → Option String

/-- HTTP outcome of one submission. -/
inductive SubmitResponse where
  | accepted (task_id status : String) (progress : Nat) (result : Option String)
      (message : String)
  | unauthorized
  | serverError
deriving DecidableEq, Repr

/-- Externally visible effects of one submission: Kafka request publishes
(task-id and commitment partition key), initial status writes, and
task↔commitment link writes. -/
structure SubmitEffects where
  queuePublishes : List (String × String)
  statusWrites : List StatusWrite
  links : List (String × String)
deriving DecidableEq, Repr

def SubmitEffects.empty : SubmitEffects := ⟨[], [], []⟩

/-- One submission's request data and the behaviour of the endpoint's
external calls. -/
structure AnalyzeEnv where
  commitment : String
  wallet_address : String
  force_refresh : Bool
  /-- outcome of `signature_verifier.verify_ownership` -/
  verifyOk : Bool
  /-- the uuid4 the Kafka producer generates for this request -/
  newTaskId : String
  /-- `send_and_wait` on the request topic -/
  kafkaErr : Option String
  /-- `setex` inside `set_task_status` (its pub/sub publish is swallowed) -/
  statusSetexErr : Option String
  /-- the `setex` pair inside `link_task_to_commitment` -/
  linkErr : Option String

/-- `analyze_wallet` (POST /risk/analyze): verify ownership; if
`force_refresh` is false look up `analysis:commitment:{commitment}` and on
a hit return task-id `"cached"`, COMPLETED, 100 with the payload inline
and perform no effect; otherwise publish the request to Kafka (partition
key = commitment), write the initial PENDING status and link the task to
the commitment.  Unexpected exceptions become HTTP 500. -/
def analyze_wallet (env : AnalyzeEnv) (st : AnalyzeState) :
    SubmitResponse × SubmitEffects × AnalyzeState :=
  if env.verifyOk = false then (.unauthorized, .empty, st)
  else
    match (if env.force_refresh then none else st.analysisCache env.commitment) with
    | some cached =>
        (.accepted "cached" "completed" 100 (some cached) "Returned from cache",
         .empty, st)
    | none =>
        match env.kafkaErr with
        | some _ => (.serverError, .empty, st)
        | none =>
            let eff1 : SubmitEffects := ⟨[(env.newTaskId, env.commitment)], [], []⟩
            match env.statusSetexErr with
            | some _ => (.serverError, eff1, st)
            | none =>
                let eff2 := { eff1 with statusWrites :=
                  [⟨env.newTaskId, "pending", 0, some "Request submitted to analysis queue"⟩] }
                match env.linkErr with
                | some _ => (.serverError, eff2, st)
                | none =>
                    let eff3 := { eff2 with links := [(env.newTaskId, env.commitment)] }
                    (.accepted env.newTaskId "pending" 0 none
                      "Analysis request submitted successfully. Use task_id to poll for results.",
                     eff3, st)

/-- A concrete submission environment whose commitment is cached. -/
def envSubmit : AnalyzeEnv where
  commitment := "0xc0ffee"
  wallet_address := "0xAB"
  force_refresh := false
  verifyOk := true
  newTaskId := "uuid-1"
  kafkaErr := none
  statusSetexErr := none
  linkErr := none

/-- A concrete cache state holding an analysis for commitment `0xc0ffee`. -/
def stCached : AnalyzeState where
  analysisCache := fun c => if c = "0xc0ffee" then some "cached-analysis-payload" else none

/-! ## C4/C9: the WebSocket connection manager

`ConnectionManager` keeps two Python dicts:
`active_connections : task_id → set of websockets` and
`connection_subscriptions : websocket → set of task_ids`.  Websockets are
identified by `Nat`; the dicts become functions to `Option` (absent key =
`none`) and the sets become duplicate-free lists. -/

/-- The two maps of `ConnectionManager`. -/
structure CMState where
  active : String → Option (List Nat)
  subs : Nat → Option (List String)

/-- Point-update of the task→subscribers dict. -/
def updActive (f : String → Option (List Nat)) (t : String) (v : Option (List Nat)) :
    String → Option (List Nat) :=
  fun t' => if t' = t then v else f t'

/-- Point-update of the websocket→subscriptions dict. -/
def updSubs (f : Nat → Option (List String)) (ws : Nat) (v : Option (List String)) :
    Nat → Option (List String) :=
  fun ws' => if ws' = ws then v else f ws'

/-- Python `set.add` on a duplicate-free list. -/
def addElem {α : Type} [DecidableEq α] (l : List α) (a : α) : List α :=
  if a ∈ l then l else l ++ [a]

/-- Python `set.discard` on a duplicate-free list. -/
def removeElem {α : Type} [DecidableEq α] (l : List α) (a : α) : List α :=
  l.filter (fun x => x != a)

def emptyCM : CMState := ⟨fun _ => none, fun _ => none⟩

/-- `ConnectionManager.connect`: accept and register an empty subscription
set for the websocket. -/
def connectOp (s : CMState) (ws : Nat) : CMState :=
  { s with subs := updSubs s.subs ws (some []) }

/-- `ConnectionManager._subscribe`: ensure the task has an entry, add the
websocket to the task's set, then add the task to the websocket's set.
The last step's dict lookup raises `KeyError` when the websocket is not
registered (leaving only the active-side mutation; `handle_message`
catches the exception) — the endpoint only invokes subscribe on a
connected websocket. -/
def subscribeOp (s : CMState) (ws : Nat) (t : String) : CMState :=
  let base := (s.active t).getD []
  let s1 := { s with active := updActive s.active t (some (addElem base ws)) }
  match s1.subs ws with
  | some m => { s1 with subs := updSubs s1.subs ws (some (addElem m t)) }
  | none => s1

/-- First block of `ConnectionManager._unsubscribe`: discard the websocket
from the task's set, deleting the task's entry when the set becomes
empty. -/
def unsubActive (s : CMState) (ws : Nat) (t : String) : CMState :=
  match s.active t with
  | none => s
  | some l =>
      let l' := removeElem l ws
      if l' = [] then { s with active := updActive s.active t none }
      else { s with active := updActive s.active t (some l') }

/-- `ConnectionManager._unsubscribe`: the active-side block, then discard
the task from the websocket's set when the websocket is registered. -/
def unsubscribeOp (s : CMState) (ws : Nat) (t : String) : CMState :=
  let s1 := unsubActive s ws t
  match s1.subs ws with
  | none => s1
  | some m => { s1 with subs := updSubs s1.subs ws (some (removeElem m t)) }

/-- `ConnectionManager.disconnect`: unsubscribe the websocket from every
task in (a copy of) its subscription set, then delete its entry. -/
def disconnectOp (s : CMState) (ws : Nat) : CMState :=
  match s.subs ws with
  | none => s
  | some m =>
      let s1 := m.foldl (fun st t => unsubscribeOp st ws t) s
      { s1 with subs := updSubs s1.subs ws none }

/-- `ConnectionManager.send_message` wraps `websocket.send_text` in
`try/except Exception` and only logs on failure, so it never raises —
regardless of whether the underlying send fails. -/
def sendMessageRaises (_failing : Nat → Bool) (_ws : Nat) : Bool := false

/-- The client actually receives the message exactly when the underlying
send does not fail. -/
def sendMessageDelivered (failing : Nat → Bool) (ws : Nat) : Bool := !(failing ws)

/-- `ConnectionManager.broadcast_status_update`: send to every current
subscriber of the task; collect in `disconnected` the websockets whose
`send_message` call raised, and disconnect them afterwards.  `failing ws`
says whether the raw send to `ws` fails.  Returns the new state and the
websockets that received the event. -/
def broadcastOp (s : CMState) (t : String) (failing : Nat → Bool) : CMState × List Nat :=
  match s.active t with
  | none => (s, [])
  | some conns =>
      let delivered := conns.filter (fun ws => sendMessageDelivered failing ws)
      let disconnected := conns.filter (fun ws => sendMessageRaises failing ws)
      (disconnected.foldl (fun st ws => disconnectOp st ws) s, delivered)

/-- The websocket is in the task's subscriber set. -/
def memActive (s : CMState) (t : String) (ws : Nat) : Prop :=
  ∃ l, s.active t = some l ∧ ws ∈ l

/-- The task is in the websocket's subscription set. -/
def memSubs (s : CMState) (ws : Nat) (t : String) : Prop :=
  ∃ m, s.subs ws = some m ∧ t ∈ m

/-- The C9 invariant: the two maps are mutual inverses, and no task entry
with an empty subscriber set remains. -/
def CMInv (s : CMState) : Prop :=
  (∀ t ws, memActive s t ws ↔ memSubs s ws t) ∧
  (∀ t, s.active t ≠ some [])

/-- The connection-manager states reachable through the public surface
(`websocket_endpoint` and the broadcaster): a websocket is connected at
most once (each connection is a fresh object), and subscribe/unsubscribe
messages are only handled for connected websockets. -/
inductive Reachable : CMState → Prop where
  | empty : Reachable emptyCM
  | connect {s : CMState} {ws : Nat} :
      Reachable s → s.subs ws = none → Reachable (connectOp s ws)
  | subscribe {s : CMState} {ws : Nat} {t : String} :
      Reachable s → s.subs ws ≠ none → Reachable (subscribeOp s ws t)
  | unsubscribe {s : CMState} {ws : Nat} {t : String} :
      Reachable s → Reachable (unsubscribeOp s ws t)
  | disconnect {s : CMState} {ws : Nat} :
      Reachable s → Reachable (disconnectOp s ws)
  | broadcast {s : CMState} {t : String} {failing : Nat → Bool} :
      Reachable s → Reachable (broadcastOp s t failing).1

/-- Two websockets (1 and 2) both subscribed to task `tA`. -/
def cmTwoSubs : CMState :=
  subscribeOp (subscribeOp (connectOp (connectOp emptyCM 1) 2) 1 "tA") 2 "tA"

/-! # Theorems -/

/-- **C1.** Evaluation at the failing input: the worker's passport stage
(`passport_service._cache_claim_data`, invoked live from the risk-analysis
handler through `create_passport`) writes the cache entry
`passport:claim:{wallet_address.lower()}` — a key containing the
lower-cased wallet address — so the claimed privacy invariant is false of
the code on its main success path; the backend's caller-less
`cache_wallet_analysis` violates it as well. -/
theorem riskC1_wallet_keyed_passport_claim_write :
    isInvokedOp (CacheWrite.passportCacheClaimData "0xAB") = true ∧
    writtenKeys (CacheWrite.passportCacheClaimData "0xAB")
      = ["passport:claim:" ++ pyLower "0xAB"] ∧
    strContains (passportClaimKey "0xAB") (pyLower "0xAB") = true ∧
    ¬ claimC1 := by
  refine ⟨rfl, rfl, by decide, ?_⟩
  intro h
  have hk : passportClaimKey "0xAB" ∈ writtenKeys (CacheWrite.passportCacheClaimData "0xAB") := by
    simp [writtenKeys]
  have := h (CacheWrite.passportCacheClaimData "0xAB") "0xAB" rfl _ hk
  have ht : strContains (passportClaimKey "0xAB") (pyLower "0xAB") = true := by decide
  rw [ht] at this
  exact absurd this (by decide)

/-- The status writes performed by the `try` body of the handler are always
an initial segment of the five-step ladder 10 → 40 → 60 → 80 → 100, and the
body only completes without raising when all five writes happened. -/
theorem handleMain_statusWrites (env : HandlerEnv) :
    ∃ n, n ≤ 5 ∧ (handleMain env).1.statusWrites = (ladder env).take n ∧
      ((handleMain env).2.isOk = true → n = 5) := by
  cases h10 : env.statusPub 10 with
  | some e10 =>
      refine ⟨1, by omega, ?_, ?_⟩
      · simp [handleMain, stepBind, runUpdate, update_task_status, Trace.empty, ladder, h10]
      · simp [handleMain, stepBind, runUpdate, update_task_status, Trace.empty, h10,
          Except.isOk, Except.toBool]
  | none =>
  cases hf : env.fetch with
  | error e =>
      refine ⟨1, by omega, ?_, ?_⟩
      · simp [handleMain, stepBind, runUpdate, update_task_status, Trace.empty, ladder, h10, hf]
      · simp [handleMain, stepBind, runUpdate, update_task_status, Trace.empty, h10, hf,
          Except.isOk, Except.toBool]
  | ok u =>
  cases h40 : env.statusPub 40 with
  | some e40 =>
      refine ⟨2, by omega, ?_, ?_⟩
      · simp [handleMain, stepBind, runUpdate, update_task_status, Trace.empty, ladder,
          h10, hf, h40]
      · simp [handleMain, stepBind, runUpdate, update_task_status, Trace.empty, h10, hf, h40,
          Except.isOk, Except.toBool]
  | none =>
  cases hs : env.score with
  | error e =>
      refine ⟨2, by omega, ?_, ?_⟩
      · simp [handleMain, stepBind, runUpdate, update_task_status, Trace.empty, ladder,
          h10, hf, h40, hs]
      · simp [handleMain, stepBind, runUpdate, update_task_status, Trace.empty, h10, hf, h40,
          hs, Except.isOk, Except.toBool]
  | ok r =>
  cases h60 : env.statusPub 60 with
  | some e60 =>
      refine ⟨3, by omega, ?_, ?_⟩
      · simp [handleMain, stepBind, runUpdate, update_task_status, Trace.empty, ladder,
          h10, hf, h40, hs, h60]
      · simp [handleMain, stepBind, runUpdate, update_task_status, Trace.empty, h10, hf, h40,
          hs, h60, Except.isOk, Except.toBool]
  | none =>
  cases h80 : env.statusPub 80 with
  | some e80 =>
      refine ⟨4, by omega, ?_, ?_⟩
      · simp [handleMain, stepBind, runUpdate, update_task_status, Trace.empty, ladder,
          h10, hf, h40, hs, h60, h80]
      · simp [handleMain, stepBind, runUpdate, update_task_status, Trace.empty, h10, hf, h40,
          hs, h60, h80, Except.isOk, Except.toBool]
  | none =>
  cases hk : env.kafkaCompleted with
  | some ek =>
      refine ⟨4, by omega, ?_, ?_⟩
      · simp [handleMain, stepBind, runUpdate, update_task_status, publishResultCompleted,
          Trace.empty, ladder, h10, hf, h40, hs, h60, h80, hk]
      · simp [handleMain, stepBind, runUpdate, update_task_status, publishResultCompleted,
          Trace.empty, h10, hf, h40, hs, h60, h80, hk, Except.isOk, Except.toBool]
  | none =>
  cases hst : env.storeResult with
  | some est =>
      refine ⟨4, by omega, ?_, ?_⟩
      · simp [handleMain, stepBind, runUpdate, update_task_status, publishResultCompleted,
          storeResultStep, Trace.empty, ladder, h10, hf, h40, hs, h60, h80, hk, hst]
      · simp [handleMain, stepBind, runUpdate, update_task_status, publishResultCompleted,
          storeResultStep, Trace.empty, h10, hf, h40, hs, h60, h80, hk, hst,
          Except.isOk, Except.toBool]
  | none =>
  cases hca : env.cacheAnalysis with
  | some eca =>
      refine ⟨4, by omega, ?_, ?_⟩
      · simp [handleMain, stepBind, runUpdate, update_task_status, publishResultCompleted,
          storeResultStep, cacheAnalysisStep, Trace.empty, ladder, h10, hf, h40, hs, h60,
          h80, hk, hst, hca]
      · simp [handleMain, stepBind, runUpdate, update_task_status, publishResultCompleted,
          storeResultStep, cacheAnalysisStep, Trace.empty, h10, hf, h40, hs, h60, h80, hk,
          hst, hca, Except.isOk, Except.toBool]
  | none =>
  cases h100 : env.statusPub 100 with
  | some e100 =>
      refine ⟨5, by omega, ?_, ?_⟩
      · simp [handleMain, stepBind, runUpdate, update_task_status, publishResultCompleted,
          storeResultStep, cacheAnalysisStep, Trace.empty, ladder, h10, hf, h40, hs, h60,
          h80, hk, hst, hca, h100]
      · exact fun _ => rfl
  | none =>
      refine ⟨5, by omega, ?_, fun _ => rfl⟩
      simp [handleMain, stepBind, runUpdate, update_task_status, publishResultCompleted,
        storeResultStep, cacheAnalysisStep, Trace.empty, ladder, h10, hf, h40, hs, h60,
        h80, hk, hst, hca, h100]

/-- Every write in the success ladder is a PROCESSING or COMPLETED write,
never FAILED. -/
theorem ladder_take_no_failed (env : HandlerEnv) (n : Nat) :
    ∀ w ∈ (ladder env).take n, ¬ w.status = "failed" := by
  intro w hw
  have hmem : w ∈ ladder env := List.take_subset n _ hw
  simp [ladder] at hmem
  rcases hmem with rfl | rfl | rfl | rfl | rfl <;> simp

/-- The progress values of an initial segment of the ladder are
non-decreasing. -/
theorem ladder_take_nondecreasing (env : HandlerEnv) (n : Nat) (hn : n ≤ 5) :
    nondecreasing (((ladder env).take n).map (·.progress)) := by
  have hmap : ((ladder env).take n).map (·.progress)
      = (([10, 40, 60, 80, 100] : List Nat).take n) := by
    rw [List.map_take]
    rfl
  rw [hmap]
  interval_cases n <;> decide

/-- **C8.** The timestamp check rejects exactly when `age = now - timestamp`
satisfies `age > 300` or `age < -60`; in particular `now - 301` and
`now + 61` are rejected while `now - 299` and `now + 59` pass. -/
theorem riskC8_timestamp_window (now ts : Int) :
    (verifyTimestampRejects now ts = true ↔ (now - ts > 300 ∨ now - ts < -60)) ∧
    verifyTimestampRejects now (now - 301) = true ∧
    verifyTimestampRejects now (now - 299) = false ∧
    verifyTimestampRejects now (now + 61) = true ∧
    verifyTimestampRejects now (now + 59) = false := by
  refine ⟨?_, ?_, ?_, ?_, ?_⟩ <;>
    simp only [verifyTimestampRejects, MAX_SIGNATURE_AGE_SECONDS] <;>
    split_ifs <;> simp_all

/-- **C3, counterexample.** The claim as stated is false: the worker-tier
`update_task_status` does not guard its pub/sub publish, so a publish
failure propagates out of the status-write operation. -/
theorem riskC3_counterexample : ¬ claimC3 := by
  intro h
  have := (h "t1" "processing" 10 none "redis connection lost").2
  simp [update_task_status] at this

/-- **C3, amended.** In both tiers the `setex` of the status entry completes
before the publish is attempted, so the cache write itself always lands;
the API tier's `set_task_status` additionally swallows a publish failure
and never raises, while the worker tier's `update_task_status` raises
exactly when its publish raises (the write having already completed). -/
theorem riskC3_write_completes_publish_behaviour
    (tid status : String) (progress : Nat) (msg : Option String)
    (publishErr : Option String) :
    (set_task_status tid status progress msg publishErr).writes
        = [(taskStatusKey tid, ⟨tid, status, progress, msg⟩)] ∧
    (set_task_status tid status progress msg publishErr).raised = none ∧
    (update_task_status tid status progress msg publishErr).writes
        = [(taskStatusKey tid, ⟨tid, status, progress, msg⟩)] ∧
    (update_task_status tid status progress msg publishErr).raised = publishErr := by
  cases publishErr <;> simp [set_task_status, update_task_status]

/-- **C6.** Over any polled sequence of messages whose topics all have a
registered handler (the consumer only subscribes to the topics of its
registered handlers), the committed offsets are exactly those of the
messages whose handler invocation returned without raising, in order; a
message whose handler raises is never committed. -/
theorem riskC6_commit_iff_handler_ok (msgs : List KafkaMsg)
    (h : ∀ m ∈ msgs, m.handlerBehavior ≠ none) :
    consumeLoop msgs = (msgs.filter handlerOk).map (·.offset) ∧
    ∀ m ∈ msgs, (consumeStep m = true ↔ m.handlerBehavior = some HandlerRun.ok) := by
  constructor
  · induction msgs with
    | nil => simp [consumeLoop]
    | cons m rest ih =>
        have hm := h m (by simp)
        have hrest : ∀ m' ∈ rest, m'.handlerBehavior ≠ none := fun m' hm' => h m' (by simp [hm'])
        match hb : m.handlerBehavior with
        | none => exact absurd hb hm
        | some .ok =>
            simp [consumeLoop, consumeStep, processMessage, handlerOk, hb, ih hrest]
        | some (.raises e) =>
            simp [consumeLoop, consumeStep, processMessage, handlerOk, hb, ih hrest]
  · intro m hm
    have := h m hm
    match hb : m.handlerBehavior with
    | none => exact absurd hb this
    | some .ok => simp [consumeStep, processMessage, hb]
    | some (.raises e) => simp [consumeStep, processMessage, hb]

/-- **C2, counterexample.** The claim as stated is false: when the
blockchain-data fetch raises after the 10% write, the `except` block writes
status FAILED with `progress=0`, so the written progress sequence is
`[10, 0]`, which decreases. -/
theorem riskC2_counterexample : ¬ claimC2 := by
  intro h
  have h1 := (h envFetchFails).1
  have e : progressValues (handle envFetchFails).1 = [10, 0] := by decide
  rw [e] at h1
  exact absurd h1 (by decide)

/-- **C2, amended.** For any single handler execution, the PROCESSING and
COMPLETED status writes carry non-decreasing progress values; on the
success path the sequence ends at 100 with COMPLETED; any FAILED write
always carries progress 0 (which may be smaller than an earlier write) and
is the last write; and whenever the handler returns normally its last
status write is either (COMPLETED, 100) or (FAILED, 0). -/
theorem riskC2_progress_ladder (env : HandlerEnv) :
    nondecreasing ((((handle env).1.statusWrites).filter
        (fun w => w.status != "failed")).map (·.progress)) ∧
    (∀ w ∈ (handle env).1.statusWrites, w.status = "failed" →
        w.progress = 0 ∧ ((handle env).1.statusWrites).getLast? = some w) ∧
    ((handle env).2 = false →
      ∃ w, ((handle env).1.statusWrites).getLast? = some w ∧
        ((w.status = "completed" ∧ w.progress = 100) ∨
         (w.status = "failed" ∧ w.progress = 0))) := by
  obtain ⟨n, hn, hw, hok⟩ := handleMain_statusWrites env
  have hfilter : (((ladder env).take n).filter (fun w => w.status != "failed"))
      = (ladder env).take n := by
    rw [List.filter_eq_self]
    intro w hwmem
    simpa using ladder_take_no_failed env n w hwmem
  rcases hm : handleMain env with ⟨tr0, v⟩
  rw [hm] at hw hok
  simp only at hw
  cases v with
  | ok u =>
      have hn5 : n = 5 := hok (by simp [Except.isOk, Except.toBool])
      subst hn5
      have hhandle : handle env = (tr0, false) := by simp [handle, hm]
      rw [hhandle]
      simp only
      rw [hw]
      refine ⟨?_, ?_, ?_⟩
      · rw [hfilter]
        exact ladder_take_nondecreasing env 5 (by omega)
      · intro w hwmem hfail
        exact absurd hfail (ladder_take_no_failed env 5 w hwmem)
      · intro _
        exact ⟨⟨env.task_id, "completed", 100, some "Analysis complete!"⟩,
          by simp [ladder], Or.inl ⟨rfl, rfl⟩⟩
  | error e =>
      have hhandle : handle env = exceptPath env tr0 e := by simp [handle, hm]
      rw [hhandle]
      cases hkf : env.kafkaFailed with
      | some e2 =>
          simp only [exceptPath, hkf]
          rw [hw]
          refine ⟨?_, ?_, ?_⟩
          · rw [hfilter]
            exact ladder_take_nondecreasing env n hn
          · intro w hwmem hfail
            exact absurd hfail (ladder_take_no_failed env n w hwmem)
          · intro hcontra
            exact absurd hcontra (by simp)
      | none =>
          cases h0 : env.statusPub 0 with
          | none =>
              simp only [exceptPath, hkf, runUpdate, update_task_status, h0]
              simp only [List.map_cons, List.map_nil]
              rw [hw]
              refine ⟨?_, ?_, ?_⟩
              · rw [List.filter_append, hfilter]
                have : (List.filter (fun w => w.status != "failed")
                    [(⟨env.task_id, "failed", 0,
                       some ("Analysis failed: " ++ e)⟩ : StatusWrite)]) = [] := by simp
                rw [this, List.append_nil]
                exact ladder_take_nondecreasing env n hn
              · intro w hwmem hfail
                rcases List.mem_append.mp hwmem with hin | hin
                · exact absurd hfail (ladder_take_no_failed env n w hin)
                · simp at hin
                  subst hin
                  exact ⟨rfl, by rw [List.getLast?_concat]⟩
              · intro _
                exact ⟨⟨env.task_id, "failed", 0, some ("Analysis failed: " ++ e)⟩,
                  by rw [List.getLast?_concat], Or.inr ⟨rfl, rfl⟩⟩
          | some e0 =>
              simp only [exceptPath, hkf, runUpdate, update_task_status, h0]
              simp only [List.map_cons, List.map_nil]
              rw [hw]
              refine ⟨?_, ?_, ?_⟩
              · rw [List.filter_append, hfilter]
                have : (List.filter (fun w => w.status != "failed")
                    [(⟨env.task_id, "failed", 0,
                       some ("Analysis failed: " ++ e)⟩ : StatusWrite)]) = [] := by simp
                rw [this, List.append_nil]
                exact ladder_take_nondecreasing env n hn
              · intro w hwmem hfail
                rcases List.mem_append.mp hwmem with hin | hin
                · exact absurd hfail (ladder_take_no_failed env n w hin)
                · simp at hin
                  subst hin
                  exact ⟨rfl, by rw [List.getLast?_concat]⟩
              · intro hcontra
                exact absurd hcontra (by simp)

/-- Witness for `riskC2_progress_ladder`: its statement instantiated at the
all-successful environment, where the handler performs the full ladder. -/
theorem riskC2_witness :
    nondecreasing ((((handle envAllOk).1.statusWrites).filter
        (fun w => w.status != "failed")).map (·.progress)) ∧
    (∀ w ∈ (handle envAllOk).1.statusWrites, w.status = "failed" →
        w.progress = 0 ∧ ((handle envAllOk).1.statusWrites).getLast? = some w) ∧
    ((handle envAllOk).2 = false →
      ∃ w, ((handle envAllOk).1.statusWrites).getLast? = some w ∧
        ((w.status = "completed" ∧ w.progress = 100) ∨
         (w.status = "failed" ∧ w.progress = 0))) :=
  riskC2_progress_ladder envAllOk

/-- **C5.** When data collection and scoring succeed, the passport stage
raises, and the finalization effects succeed, the handler still completes
the task: the result payload embeds
`passport = {status: "generation_failed", error}`, that payload is
published on the result topic, stored under `task:result:{task_id}` and
cached under `analysis:commitment:{commitment}`, the final status write is
COMPLETED with progress 100, no FAILED status is ever written, and the
handler returns normally. -/
theorem riskC5_passport_failure_still_completes (env : HandlerEnv)
    (r : RiskAnalysis) (pe : String)
    (hf : env.fetch = Except.ok ()) (hs : env.score = Except.ok r)
    (hp : env.passport = Except.error pe)
    (h10 : env.statusPub 10 = none) (h40 : env.statusPub 40 = none)
    (h60 : env.statusPub 60 = none) (h80 : env.statusPub 80 = none)
    (h100 : env.statusPub 100 = none)
    (hk : env.kafkaCompleted = none) (hst : env.storeResult = none)
    (hca : env.cacheAnalysis = none) :
    (handle env).2 = false ∧
    (handle env).1.kafkaResults
      = [⟨env.task_id, "completed",
          some { r with passport := some (Passport.generationFailed pe) }, none⟩] ∧
    (handle env).1.resultStore
      = [(taskResultKey env.task_id,
          { r with passport := some (Passport.generationFailed pe) })] ∧
    (handle env).1.analysisStore
      = [(analysisCommitmentKey env.commitment,
          { r with passport := some (Passport.generationFailed pe) })] ∧
    ((handle env).1.statusWrites).getLast?
      = some ⟨env.task_id, "completed", 100, some "Analysis complete!"⟩ ∧
    (∀ w ∈ (handle env).1.statusWrites, ¬ w.status = "failed") := by
  refine ⟨?_, ?_, ?_, ?_, ?_, ?_⟩ <;>
    simp [handle, handleMain, stepBind, runUpdate, update_task_status,
      publishResultCompleted, storeResultStep, cacheAnalysisStep, passportStep,
      Trace.empty, hf, hs, hp, h10, h40, h60, h80, h100, hk, hst, hca]

/-- Witness for `riskC5_passport_failure_still_completes` at the concrete
environment in which only the passport stage raises. -/
theorem riskC5_witness :
    envPassportFails.fetch = Except.ok () ∧
    envPassportFails.score = Except.ok ⟨25, "low", none⟩ ∧
    envPassportFails.passport = Except.error "FHE service unavailable" ∧
    ((handle envPassportFails).2 = false ∧
     (handle envPassportFails).1.kafkaResults
       = [⟨envPassportFails.task_id, "completed",
           some { risk_score := 25, risk_band := "low",
                  passport := some (Passport.generationFailed "FHE service unavailable") },
           none⟩] ∧
     (handle envPassportFails).1.resultStore
       = [(taskResultKey envPassportFails.task_id,
           { risk_score := 25, risk_band := "low",
             passport := some (Passport.generationFailed "FHE service unavailable") })] ∧
     (handle envPassportFails).1.analysisStore
       = [(analysisCommitmentKey envPassportFails.commitment,
           { risk_score := 25, risk_band := "low",
             passport := some (Passport.generationFailed "FHE service unavailable") })] ∧
     ((handle envPassportFails).1.statusWrites).getLast?
       = some ⟨envPassportFails.task_id, "completed", 100, some "Analysis complete!"⟩ ∧
     (∀ w ∈ (handle envPassportFails).1.statusWrites, ¬ w.status = "failed")) :=
  ⟨rfl, rfl, rfl,
   riskC5_passport_failure_still_completes envPassportFails ⟨25, "low", none⟩
     "FHE service unavailable" rfl rfl rfl rfl rfl rfl rfl rfl rfl rfl rfl⟩

/-- **C10.** Provided the failure-path effects themselves succeed (the
failed-result Kafka publish and the FAILED status write), the handler
returns normally for every behaviour of its pipeline stages; and whenever
the `try` body raised, the trace ends with a failed-result publish and a
FAILED status write carrying the exception's message. -/
theorem riskC10_no_propagation (env : HandlerEnv)
    (hkf : env.kafkaFailed = none) (h0 : env.statusPub 0 = none) :
    (handle env).2 = false ∧
    (∀ tr e, handleMain env = (tr, Except.error e) →
      ((handle env).1.kafkaResults).getLast?
        = some ⟨env.task_id, "failed", none, some e⟩ ∧
      ((handle env).1.statusWrites).getLast?
        = some ⟨env.task_id, "failed", 0, some ("Analysis failed: " ++ e)⟩) := by
  rcases hm : handleMain env with ⟨tr0, v⟩
  cases v with
  | ok u =>
      constructor
      · simp [handle, hm]
      · intro tr e h
        simp at h
  | error e =>
      have hhandle : handle env = exceptPath env tr0 e := by simp [handle, hm]
      rw [hhandle]
      constructor
      · simp [exceptPath, hkf, runUpdate, update_task_status, h0]
      · intro tr e' h
        injection h with h1 h2
        injection h2 with h3
        subst h3
        simp [exceptPath, hkf, runUpdate, update_task_status, h0, List.getLast?_concat]

/-- Witness for `riskC10_no_propagation` at the concrete environment whose
fetch stage raises: the handler returns normally and ends with the
failed-result publish and FAILED status write. -/
theorem riskC10_witness :
    envFetchFails.kafkaFailed = none ∧ envFetchFails.statusPub 0 = none ∧
    ((handle envFetchFails).2 = false ∧
     (∀ tr e, handleMain envFetchFails = (tr, Except.error e) →
       ((handle envFetchFails).1.kafkaResults).getLast?
         = some ⟨envFetchFails.task_id, "failed", none, some e⟩ ∧
       ((handle envFetchFails).1.statusWrites).getLast?
         = some ⟨envFetchFails.task_id, "failed", 0, some ("Analysis failed: " ++ e)⟩)) :=
  ⟨rfl, rfl, riskC10_no_propagation envFetchFails rfl rfl⟩

/-- **C7.** A submission with `force_refresh=false` whose commitment has a
cached analysis entry returns task-id `"cached"`, COMPLETED, progress 100
with the cached payload inline, performs no queue publish, no status write
and no link write, and leaves the cache state unchanged; hence a second
submission of the same commitment against the resulting state returns the
identical response, and the two submissions together perform zero queue
publishes. -/
theorem riskC7_idempotent_cache_hit (env env2 : AnalyzeEnv) (st : AnalyzeState)
    (p : String)
    (hv : env.verifyOk = true) (hfr : env.force_refresh = false)
    (hc : st.analysisCache env.commitment = some p)
    (hv2 : env2.verifyOk = true) (hfr2 : env2.force_refresh = false)
    (hsame : env2.commitment = env.commitment) :
    (analyze_wallet env st).1
      = SubmitResponse.accepted "cached" "completed" 100 (some p) "Returned from cache" ∧
    (analyze_wallet env st).2.1 = SubmitEffects.empty ∧
    (analyze_wallet env st).2.2 = st ∧
    (analyze_wallet env2 (analyze_wallet env st).2.2).1 = (analyze_wallet env st).1 ∧
    (analyze_wallet env2 (analyze_wallet env st).2.2).2.1 = SubmitEffects.empty := by
  refine ⟨?_, ?_, ?_, ?_, ?_⟩ <;>
    simp [analyze_wallet, hv, hfr, hc, hv2, hfr2, hsame, SubmitEffects.empty]

/-- Witness for `riskC7_idempotent_cache_hit` at a concrete cached
commitment submitted twice. -/
theorem riskC7_witness :
    envSubmit.verifyOk = true ∧ envSubmit.force_refresh = false ∧
    stCached.analysisCache envSubmit.commitment = some "cached-analysis-payload" ∧
    ((analyze_wallet envSubmit stCached).1
       = SubmitResponse.accepted "cached" "completed" 100
           (some "cached-analysis-payload") "Returned from cache" ∧
     (analyze_wallet envSubmit stCached).2.1 = SubmitEffects.empty ∧
     (analyze_wallet envSubmit stCached).2.2 = stCached ∧
     (analyze_wallet envSubmit (analyze_wallet envSubmit stCached).2.2).1
       = (analyze_wallet envSubmit stCached).1 ∧
     (analyze_wallet envSubmit (analyze_wallet envSubmit stCached).2.2).2.1
       = SubmitEffects.empty) :=
  ⟨rfl, rfl, by decide,
   riskC7_idempotent_cache_hit envSubmit envSubmit stCached "cached-analysis-payload"
     rfl rfl (by decide) rfl rfl rfl⟩

/-- Witness for `riskC6_commit_iff_handler_ok` on a concrete two-message
poll: the first handler succeeds and its offset 1 is committed, the second
raises and offset 2 is not. -/
theorem riskC6_witness :
    (∀ m ∈ [(⟨1, "risk-analysis-requests", some HandlerRun.ok⟩ : KafkaMsg),
            ⟨2, "risk-analysis-requests", some (HandlerRun.raises "RPC timeout")⟩],
        m.handlerBehavior ≠ none) ∧
    consumeLoop [⟨1, "risk-analysis-requests", some HandlerRun.ok⟩,
                 ⟨2, "risk-analysis-requests", some (HandlerRun.raises "RPC timeout")⟩]
      = ([(⟨1, "risk-analysis-requests", some HandlerRun.ok⟩ : KafkaMsg),
          ⟨2, "risk-analysis-requests", some (HandlerRun.raises "RPC timeout")⟩].filter
            handlerOk).map (·.offset) :=
  ⟨by decide, (riskC6_commit_iff_handler_ok _ (by decide)).1⟩


theorem mem_addElem {α : Type} [DecidableEq α] {l : List α} {a b : α} :
    b ∈ addElem l a ↔ b ∈ l ∨ b = a := by
  unfold addElem
  split
  · next hmem =>
      constructor
      · exact Or.inl
      · rintro (h | rfl) <;> assumption
  · simp

theorem mem_removeElem {α : Type} [DecidableEq α] {l : List α} {a b : α} :
    b ∈ removeElem l a ↔ b ∈ l ∧ b ≠ a := by
  simp [removeElem]

theorem addElem_ne_nil {α : Type} [DecidableEq α] {l : List α} {a : α} :
    addElem l a ≠ [] := by
  unfold addElem
  split
  · next hmem =>
      intro hnil
      rw [hnil] at hmem
      exact absurd hmem (List.not_mem_nil a)
  · simp

theorem subs_unsubActive (s : CMState) (ws : Nat) (t : String) :
    (unsubActive s ws t).subs = s.subs := by
  unfold unsubActive
  cases s.active t
  · rfl
  · dsimp only
    split <;> rfl

theorem active_unsubscribeOp (s : CMState) (ws : Nat) (t : String) :
    (unsubscribeOp s ws t).active = (unsubActive s ws t).active := by
  unfold unsubscribeOp
  cases h : (unsubActive s ws t).subs ws <;> simp [h]

theorem active_unsubActive (s : CMState) (ws : Nat) (t t' : String) :
    (unsubActive s ws t).active t' =
      if t' = t then
        match s.active t with
        | none => none
        | some l => if removeElem l ws = [] then none else some (removeElem l ws)
      else s.active t' := by
  unfold unsubActive
  cases ha : s.active t with
  | none =>
      by_cases ht : t' = t
      · subst ht
        simp [ha]
      · simp [ht]
  | some l =>
      by_cases ht : t' = t
      · subst ht
        by_cases hnil : removeElem l ws = [] <;> simp [updActive, hnil]
      · by_cases hnil : removeElem l ws = [] <;> simp [updActive, ht, hnil]

theorem memActive_unsubscribeOp (s : CMState) (ws : Nat) (t t' : String) (ws' : Nat) :
    memActive (unsubscribeOp s ws t) t' ws' ↔
      (memActive s t' ws' ∧ ¬(t' = t ∧ ws' = ws)) := by
  unfold memActive
  rw [show (unsubscribeOp s ws t).active t' = (unsubActive s ws t).active t' from
    congrFun (active_unsubscribeOp s ws t) t', active_unsubActive]
  by_cases ht : t' = t
  · subst ht
    rw [if_pos rfl]
    cases ha : s.active t' with
    | none => simp [ha]
    | some l =>
        dsimp only
        by_cases hnil : removeElem l ws = []
        · rw [if_pos hnil]
          simp
          intro hmem
          by_contra hne
          have : ws' ∈ removeElem l ws := mem_removeElem.mpr ⟨hmem, hne⟩
          rw [hnil] at this
          exact absurd this (List.not_mem_nil ws')
        · rw [if_neg hnil]
          simp [mem_removeElem]
  · rw [if_neg ht]
    simp [ht]

theorem memSubs_unsubscribeOp (s : CMState) (ws : Nat) (t : String) (ws' : Nat) (t' : String) :
    memSubs (unsubscribeOp s ws t) ws' t' ↔
      (memSubs s ws' t' ∧ ¬(ws' = ws ∧ t' = t)) := by
  cases hs : s.subs ws with
  | none =>
      have heq : unsubscribeOp s ws t = unsubActive s ws t := by
        unfold unsubscribeOp
        simp only [subs_unsubActive, hs]
      unfold memSubs
      rw [heq, subs_unsubActive]
      constructor
      · intro h
        refine ⟨h, ?_⟩
        rintro ⟨rfl, rfl⟩
        obtain ⟨m, hm, _⟩ := h
        rw [hs] at hm
        cases hm
      · exact fun h => h.1
  | some m =>
      have heq : (unsubscribeOp s ws t).subs = updSubs s.subs ws (some (removeElem m t)) := by
        unfold unsubscribeOp
        simp only [subs_unsubActive, hs]
      unfold memSubs
      rw [heq]
      unfold updSubs
      by_cases hws : ws' = ws
      · subst hws
        simp only [if_pos]
        simp [hs, mem_removeElem]
      · simp only [if_neg hws]
        simp [hws]


theorem active_subscribeOp (s : CMState) (ws : Nat) (t t' : String) :
    (subscribeOp s ws t).active t' =
      if t' = t then some (addElem ((s.active t).getD []) ws) else s.active t' := by
  unfold subscribeOp
  dsimp only
  cases hs : s.subs ws <;> simp [updActive, hs]

theorem subs_subscribeOp (s : CMState) (ws : Nat) (t : String) (ws' : Nat) :
    (subscribeOp s ws t).subs ws' =
      match s.subs ws with
      | none => s.subs ws'
      | some m => if ws' = ws then some (addElem m t) else s.subs ws' := by
  unfold subscribeOp
  dsimp only
  cases hs : s.subs ws with
  | none => simp [hs]
  | some m =>
      by_cases hws : ws' = ws <;> simp [updSubs, hs, hws]

theorem memActive_subscribeOp (s : CMState) (ws : Nat) (t t' : String) (ws' : Nat) :
    memActive (subscribeOp s ws t) t' ws' ↔
      (memActive s t' ws' ∨ (t' = t ∧ ws' = ws)) := by
  unfold memActive
  rw [active_subscribeOp]
  by_cases ht : t' = t
  · subst ht
    rw [if_pos rfl]
    cases ha : s.active t' <;> simp [ha, mem_addElem]
  · rw [if_neg ht]
    simp [ht]

theorem memSubs_subscribeOp (s : CMState) (ws : Nat) (t : String) (ws' : Nat) (t' : String)
    (hconn : s.subs ws ≠ none) :
    memSubs (subscribeOp s ws t) ws' t' ↔
      (memSubs s ws' t' ∨ (ws' = ws ∧ t' = t)) := by
  cases hs : s.subs ws with
  | none => exact absurd hs hconn
  | some m =>
      unfold memSubs
      rw [subs_subscribeOp, hs]
      dsimp only
      by_cases hws : ws' = ws
      · subst hws
        rw [if_pos rfl]
        simp [hs, mem_addElem]
      · rw [if_neg hws]
        simp [hws]

theorem memActive_connectOp (s : CMState) (ws : Nat) (t' : String) (ws' : Nat) :
    memActive (connectOp s ws) t' ws' ↔ memActive s t' ws' := Iff.rfl

theorem memSubs_connectOp (s : CMState) (ws ws' : Nat) (t' : String) :
    memSubs (connectOp s ws) ws' t' ↔ (ws' ≠ ws ∧ memSubs s ws' t') := by
  unfold memSubs connectOp updSubs
  dsimp only
  by_cases hws : ws' = ws
  · subst hws
    rw [if_pos rfl]
    simp
  · rw [if_neg hws]
    simp [hws]

theorem CMInv_empty : CMInv emptyCM := by
  constructor
  · intro t ws
    simp [memActive, memSubs, emptyCM]
  · intro t
    simp [emptyCM]

theorem CMInv_connect (s : CMState) (ws : Nat) (h : CMInv s)
    (hfresh : s.subs ws = none) : CMInv (connectOp s ws) := by
  constructor
  · intro t ws'
    rw [memActive_connectOp, memSubs_connectOp]
    by_cases hws : ws' = ws
    · subst hws
      simp only [ne_eq, not_true_eq_false, false_and, iff_false]
      intro hma
      obtain ⟨m, hm, _⟩ := (h.1 t ws').mp hma
      rw [hfresh] at hm
      cases hm
    · simp [hws, h.1 t ws']
  · exact h.2

theorem CMInv_subscribe (s : CMState) (ws : Nat) (t : String) (h : CMInv s)
    (hconn : s.subs ws ≠ none) : CMInv (subscribeOp s ws t) := by
  constructor
  · intro t' ws'
    rw [memActive_subscribeOp, memSubs_subscribeOp s ws t ws' t' hconn]
    have := h.1 t' ws'
    tauto
  · intro t'
    rw [show (subscribeOp s ws t).active t' = _ from active_subscribeOp s ws t t']
    by_cases ht : t' = t
    · subst ht
      rw [if_pos rfl]
      intro hcontra
      injection hcontra with h2
      exact addElem_ne_nil h2
    · rw [if_neg ht]
      exact h.2 t'

theorem CMInv_unsubscribe (s : CMState) (ws : Nat) (t : String) (h : CMInv s) :
    CMInv (unsubscribeOp s ws t) := by
  constructor
  · intro t' ws'
    rw [memActive_unsubscribeOp, memSubs_unsubscribeOp]
    have := h.1 t' ws'
    tauto
  · intro t'
    rw [show (unsubscribeOp s ws t).active t' = _ from
      congrFun (active_unsubscribeOp s ws t) t', active_unsubActive]
    by_cases ht : t' = t
    · subst ht
      rw [if_pos rfl]
      cases ha : s.active t'
      · simp
      · dsimp only
        split
        · simp
        · next hnnil =>
            intro hc
            injection hc with h2
            exact hnnil h2
    · rw [if_neg ht]
      exact h.2 t'

theorem memActive_foldl_unsub (ws : Nat) (ts : List String) (s : CMState) (t : String) :
    memActive (ts.foldl (fun st t2 => unsubscribeOp st ws t2) s) t ws ↔
      (memActive s t ws ∧ t ∉ ts) := by
  induction ts generalizing s with
  | nil => simp
  | cons a ts ih =>
      rw [List.foldl_cons, ih, memActive_unsubscribeOp]
      simp only [List.mem_cons]
      tauto

theorem CMInv_foldl_unsub (ws : Nat) (ts : List String) (s : CMState) (h : CMInv s) :
    CMInv (ts.foldl (fun st t2 => unsubscribeOp st ws t2) s) := by
  induction ts generalizing s with
  | nil => exact h
  | cons a ts ih => exact ih _ (CMInv_unsubscribe s ws a h)

theorem CMInv_disconnect (s : CMState) (ws : Nat) (h : CMInv s) :
    CMInv (disconnectOp s ws) := by
  unfold disconnectOp
  cases hs : s.subs ws with
  | none => exact h
  | some m =>
      dsimp only
      have hinv1 : CMInv (m.foldl (fun st t2 => unsubscribeOp st ws t2) s) :=
        CMInv_foldl_unsub ws m s h
      have hnoact : ∀ t, ¬ memActive (m.foldl (fun st t2 => unsubscribeOp st ws t2) s) t ws := by
        intro t hma
        rw [memActive_foldl_unsub] at hma
        obtain ⟨hma0, hnot⟩ := hma
        obtain ⟨m2, hm2, htin⟩ := (h.1 t ws).mp hma0
        rw [hs] at hm2
        injection hm2 with h2
        subst h2
        exact hnot htin
      constructor
      · intro t ws'
        by_cases hws : ws' = ws
        · subst hws
          constructor
          · intro hma
            exact absurd hma (hnoact t)
          · rintro ⟨m', hm', _⟩
            simp [updSubs] at hm'
        · constructor
          · intro hma
            obtain ⟨m', hm', htin⟩ := (hinv1.1 t ws').mp hma
            refine ⟨m', ?_, htin⟩
            show updSubs _ ws none ws' = some m'
            unfold updSubs
            rw [if_neg hws]
            exact hm'
          · rintro ⟨m', hm', htin⟩
            have hm'2 : (m.foldl (fun st t2 => unsubscribeOp st ws t2) s).subs ws' = some m' := by
              have : updSubs (m.foldl (fun st t2 => unsubscribeOp st ws t2) s).subs ws none ws'
                  = some m' := hm'
              unfold updSubs at this
              rw [if_neg hws] at this
              exact this
            exact (hinv1.1 t ws').mpr ⟨m', hm'2, htin⟩
      · exact hinv1.2


/-- `broadcast_status_update` never mutates the subscription state: since
`send_message` swallows every send exception, the `disconnected` list is
always empty and the cleanup loop is dead code. -/
theorem broadcastOp_fst (s : CMState) (t : String) (failing : Nat → Bool) :
    (broadcastOp s t failing).1 = s := by
  unfold broadcastOp
  cases h : s.active t with
  | none => rfl
  | some conns => simp [sendMessageRaises]

/-- **C9.** Every connection-manager state reachable through the public
surface satisfies the invariant: a connection is in a task's subscriber
set iff that task is in the connection's subscription set, and no task
entry with an empty subscriber set remains (the entry is pruned when its
last subscriber unsubscribes or disconnects). -/
theorem riskC9_subscription_maps_mutual_inverse (s : CMState) (h : Reachable s) :
    CMInv s := by
  induction h with
  | empty => exact CMInv_empty
  | connect _ hfresh ih => exact CMInv_connect _ _ ih hfresh
  | subscribe _ hconn ih => exact CMInv_subscribe _ _ _ ih hconn
  | unsubscribe _ ih => exact CMInv_unsubscribe _ _ _ ih
  | disconnect _ ih => exact CMInv_disconnect _ _ ih
  | broadcast _ ih =>
      rw [broadcastOp_fst]
      exact ih

/-- Witness for `riskC9_subscription_maps_mutual_inverse` at the concrete
reachable state with websockets 1 and 2 subscribed to task `tA`. -/
theorem riskC9_witness : CMInv cmTwoSubs :=
  riskC9_subscription_maps_mutual_inverse cmTwoSubs
    (Reachable.subscribe
      (Reachable.subscribe
        (Reachable.connect (Reachable.connect Reachable.empty (by decide)) (by decide))
        (by decide))
      (by decide))

/-- **C4.** Evaluation at the failing input: with websockets 1 and 2
subscribed to task `tA` and the raw send to websocket 1 failing, the
broadcast still delivers to websocket 2 only, but — because `send_message`
swallows the exception — websocket 1 is NOT removed: it remains in the
task's subscriber set and keeps its subscription, contradicting the
claimed removal (the cleanup branch in `broadcast_status_update` is
unreachable). -/
theorem riskC4_send_failure_connection_not_removed :
    (broadcastOp cmTwoSubs "tA" (fun ws => ws == 1)).2 = [2] ∧
    (broadcastOp cmTwoSubs "tA" (fun ws => ws == 1)).1.active "tA" = some [1, 2] ∧
    (broadcastOp cmTwoSubs "tA" (fun ws => ws == 1)).1.subs 1 = some ["tA"] := by
  refine ⟨?_, ?_, ?_⟩ <;> decide

end SilentRisk
